import Mathlib

set_option maxRecDepth 8000

/-!
Verification of the MCP7940N real-time-clock driver (src/lib.rs) against its
natural-language specification.

The driver is embedded shallowly.  The I2C bus together with the registers of the device is modelled as a register bank, a function from register address to
byte value; a bus transaction is either a pointer-write-then-read
(`Transaction.writeRead`) or a plain write (`Transaction.write`) whose first
data byte is the register pointer, exactly as the MCP7940N interprets it.
Every driver operation is a pure function from the pre-call bank to the list
of transactions it issues and its result (for writes, the post-call bank).
`chrono::NaiveDateTime` is modelled by the structure `DateTime`; the
validity checks performed by `NaiveDate::from_ymd_opt` and `and_hms_opt`
are modelled by `ValidYmd` and `ValidHms`, and the panicking `.unwrap()`
calls in `now()` are modelled by an `Option` result, `none` standing for the
panic.  The truncating `i32` division of Rust and remainder are `Int.tdiv` and
`Int.tmod`; the wrapping cast `as u8` is `toU8`.
-/

namespace Mcp7940n

/-- Register file of the device: one byte value per register address. -/
abbrev Bank := Nat → Nat

/-- Every register of the bank holds a byte value. -/
def ByteBank (bank : Bank) : Prop := ∀ r, bank r < 256

/-- Mirror of the Rust enum `ClockSource`. -/
inductive ClockSource where
  | ExtCrystal : ClockSource
  | ExtClock : ClockSource

/-- True when the selected clock source is the external clock input. -/
def ClockSource.isExtClock : ClockSource → Bool
  | ClockSource.ExtCrystal => false
  | ClockSource.ExtClock => true

/-- Mirror of the Rust struct `ClockConfig`. -/
structure ClockConfig where
  enabled : Bool
  clock_source : ClockSource

/-- The fields of `chrono::NaiveDateTime` consumed and produced by the driver.
The year is an `Int` because `chrono` stores it as a signed integer. -/
structure DateTime where
  year : Int
  month : Nat
  day : Nat
  hour : Nat
  minute : Nat
  second : Nat
deriving DecidableEq

/-- One I2C transaction issued by the driver: either a register-pointer write
followed by a read of `len` bytes, or a plain write whose first byte is the
register pointer and whose remaining bytes land in consecutive registers. -/
inductive Transaction where
  | writeRead (ptr : Nat) (len : Nat) : Transaction
  | write (bytes : List Nat) : Transaction
deriving DecidableEq

/-- Register addresses whose contents a transaction overwrites. -/
def Transaction.covered : Transaction → List Nat
  | Transaction.writeRead _ _ => []
  | Transaction.write [] => []
  | Transaction.write (p :: ds) => (List.range ds.length).map (fun i => p + i)

/-- True for plain write transactions. -/
def Transaction.isWrite : Transaction → Bool
  | Transaction.writeRead _ _ => false
  | Transaction.write _ => true

/-- The bytes returned by a `write_read` transaction with register pointer
`ptr` and read length `len`. -/
def readBytes (bank : Bank) (ptr len : Nat) : List Nat :=
  (List.range len).map (fun i => bank (ptr + i))

/-- Effect of a plain I2C write on the register bank: the first byte sets the
register pointer, the remaining bytes overwrite consecutive registers. -/
def i2cWrite (bank : Bank) : List Nat → Bank
  | [] => bank
  | p :: ds => fun r => if p ≤ r ∧ r - p < ds.length then ds.getD (r - p) 0 else bank r

/-- Effect of one transaction on the register bank (reads change nothing). -/
def applyTransaction (bank : Bank) : Transaction → Bank
  | Transaction.writeRead _ _ => bank
  | Transaction.write bs => i2cWrite bank bs

/-- Effect of a transaction sequence on the register bank. -/
def runTrace (bank : Bank) (txs : List Transaction) : Bank :=
  txs.foldl applyTransaction bank

/-- Leap-year rule applied by `chrono` for the years this driver can store. -/
def isLeapYear (y : Int) : Bool :=
  (y % 4 == 0) && ((y % 100 != 0) || (y % 400 == 0))

/-- Number of days `chrono` accepts for a given month. -/
def days_in_month (y : Int) (m : Nat) : Nat :=
  if m = 2 then (if isLeapYear y then 29 else 28)
  else if m = 4 ∨ m = 6 ∨ m = 9 ∨ m = 11 then 30
  else 31

/-- Validity check performed by `NaiveDate::from_ymd_opt`. -/
def ValidYmd (y : Int) (m d : Nat) : Prop :=
  1 ≤ m ∧ m ≤ 12 ∧ 1 ≤ d ∧ d ≤ days_in_month y m

instance (y : Int) (m d : Nat) : Decidable (ValidYmd y m d) := by
  unfold ValidYmd; infer_instance

/-- Validity check performed by `NaiveDate::and_hms_opt`. -/
def ValidHms (h m s : Nat) : Prop := h < 24 ∧ m < 60 ∧ s < 60

instance (h m s : Nat) : Decidable (ValidHms h m s) := by
  unfold ValidHms; infer_instance

/-- Hour decoding from the hours register byte, lines 76 to 95 of src/lib.rs:
bit 6 selects 12-hour mode; in 12-hour mode bit 5 is PM, bit 4 the BCD tens
digit, and the 12-to-24 conversion is applied; in 24-hour mode bits 5 and 4
are the BCD tens digits. -/
def decode_hour (b : Nat) : Nat :=
  let hr_ones := b &&& 0b00001111
  if (b &&& 0b01000000) != 0 then
    let pm := (b &&& 0b00100000) != 0
    let hr_ten := (b &&& 0b00010000) >>> 4
    let hr := hr_ten * 10 + hr_ones
    if pm && hr != 12 then hr + 12
    else if !pm && hr == 12 then 0
    else hr
  else
    let hr_ten := (b &&& 0b00110000) >>> 4
    hr_ten * 10 + hr_ones

/-- Decoding of the 7-byte register image read by `now()`, lines 66 to 115 of
src/lib.rs.  The result is `none` exactly when the Rust code panics on one of
its two `.unwrap()` calls, i.e. when the decoded fields are not a valid
calendar date and time. -/
def decode_time (data : List Nat) : Option DateTime :=
  let d := fun i => data.getD i 0
  let sec_ten := (d 0 &&& 0b01110000) >>> 4
  let sec_ones := d 0 &&& 0b00001111
  let secs := sec_ten * 10 + sec_ones
  let min_ten := (d 1 &&& 0b01110000) >>> 4
  let min_ones := d 1 &&& 0b00001111
  let min := min_ten * 10 + min_ones
  let hour := decode_hour (d 2)
  let day_ten := (d 4 &&& 0b00110000) >>> 4
  let day_ones := d 4 &&& 0b00001111
  let day := day_ten * 10 + day_ones
  let month_ten := (d 5 &&& 0b00010000) >>> 4
  let month_ones := d 5 &&& 0b00001111
  let month := month_ten * 10 + month_ones
  let year_ten := (d 6 &&& 0b11110000) >>> 4
  let year_ones := d 6 &&& 0b00001111
  let year : Int := (year_ten : Int) * 10 + (year_ones : Int) + 2000
  if ValidYmd year month day ∧ ValidHms hour min secs then
    some { year := year, month := month, day := day,
           hour := hour, minute := min, second := secs }
  else
    none

/-- The operation `now()`: one `write_read` of 7 bytes at register 0x00,
then pure decoding.  `none` models the panic on corrupt register data. -/
def now (bank : Bank) : List Transaction × Option DateTime :=
  ([Transaction.writeRead 0x00 7], decode_time (readBytes bank 0x00 7))

/-- The operation `osc_running()`: one `write_read` of 1 byte at register
0x03, then a test of bit 5. -/
def osc_running (bank : Bank) : List Transaction × Bool :=
  ([Transaction.writeRead 0x03 1],
   ((readBytes bank 0x03 1).getD 0 0 &&& 0b00100000) != 0)

/-- The 9-byte buffer `configure_clock` assembles: byte 0 stays 0 and acts as
the register pointer; bytes 1 to 8 are registers 0x00 to 0x07 as read, with
bit 7 of byte 1 forced to `enabled` and bit 3 of byte 8 forced by the clock
source (lines 33 to 52 of src/lib.rs). -/
def configure_data (bank : Bank) (config : ClockConfig) : List Nat :=
  let d1 := if config.enabled then bank 0 ||| 0b10000000 else bank 0 &&& 0b01111111
  let d8 := match config.clock_source with
    | ClockSource.ExtClock => bank 7 ||| 0b00001000
    | ClockSource.ExtCrystal => bank 7 &&& 0b11110111
  [0, d1, bank 1, bank 2, bank 3, bank 4, bank 5, bank 6, d8]

/-- The operation `configure_clock`: a `write_read` of 8 data bytes at
register 0x00, then one plain write of the 9-byte buffer. -/
def configure_clock (bank : Bank) (config : ClockConfig) : List Transaction × Bank :=
  ([Transaction.writeRead 0x00 8, Transaction.write (configure_data bank config)],
   i2cWrite bank (configure_data bank config))

/-- Wrapping Rust cast of a signed integer to `u8`: the low eight bits. -/
def toU8 (x : Int) : Nat := (x % 256).toNat

/-- The 8-byte buffer `set_datetime` assembles (lines 118 to 168 of
src/lib.rs): byte 0 stays 0 and acts as the register pointer; bytes 1 to 7
hold registers 0x00 to 0x06, read first and then overwritten field by field
with BCD values while masking in the preserved high bits; the weekday byte
(byte 4, register 0x03) is written back exactly as read; the year byte is
fully overwritten.  The tens/ones splits of the `u32` time fields cannot
overflow their `u8` casts because `chrono` bounds them; the year bytes go
through the wrapping casts exactly as in the source. -/
def set_data (bank : Bank) (t : DateTime) : List Nat :=
  let seconds_tens := t.second / 10
  let seconds_ones := t.second % 10
  let minutes_tens := t.minute / 10
  let minutes_ones := t.minute % 10
  let hours_tens := t.hour / 10
  let hours_ones := t.hour % 10
  let day_tens := t.day / 10
  let day_ones := t.day % 10
  let month_tens := t.month / 10
  let month_ones := t.month % 10
  let year_tens := toU8 (Int.tdiv (t.year - 2000) 10)
  let year_ones := toU8 (Int.tmod (t.year - 2000) 10)
  let d1 := ((bank 0 &&& 0b10000000) ||| (seconds_tens <<< 4)) ||| seconds_ones
  let d2 := ((bank 1 &&& 0b10000000) ||| (minutes_tens <<< 4)) ||| minutes_ones
  let d3 := ((bank 2 &&& 0b10000000) ||| (hours_tens <<< 4)) ||| hours_ones
  let d4 := bank 3
  let d5 := ((bank 4 &&& 0b11000000) ||| (day_tens <<< 4)) ||| day_ones
  let d6 := ((bank 5 &&& 0b11000000) ||| (month_tens <<< 4)) ||| month_ones
  let d7 := (0 ||| ((year_tens <<< 4) % 256)) ||| year_ones
  [0, d1, d2, d3, d4, d5, d6, d7]

/-- The operation `set_datetime`: a `write_read` of 7 data bytes at register
0x00, then one plain write of the 8-byte buffer. -/
def set_datetime (bank : Bank) (t : DateTime) : List Transaction × Bank :=
  ([Transaction.writeRead 0x00 7, Transaction.write (set_data bank t)],
   i2cWrite bank (set_data bank t))

/-- The all-zero register bank. -/
def bankZero : Bank := fun _ => 0

/-- A bank carrying a nonzero sentinel in register 0x07. -/
def bankSentinel : Bank := fun r => if r = 7 then 171 else 0

/-- A bank with every register byte set to the sentinel 0xFF. -/
def bankFF : Bank := fun _ => 255

/-- Modelled from the spec: the BCD hour read from a 12-hour-mode hours byte,
bit 4 as the tens digit and bits 3 to 0 as the ones digit. -/
def spec_bcd12 (b : Nat) : Nat := (if b.testBit 4 then 1 else 0) * 10 + (b &&& 15)

/-- Modelled from the spec: the 12-to-24 hour conversion rule, stated on the
BCD hour and the PM flag. -/
def spec_hour12 (hr : Nat) (pm : Bool) : Nat :=
  if pm = true ∧ hr ≠ 12 then hr + 12
  else if pm = false ∧ hr = 12 then 0
  else hr

/-- The timestamp 1999-12-31 23:59:59, one second before the representable
year range. -/
def ts1999 : DateTime :=
  { year := 1999, month := 12, day := 31, hour := 23, minute := 59, second := 59 }

/-- The timestamp 2100-01-01 00:00:00, one year past the representable
year range. -/
def ts2100 : DateTime :=
  { year := 2100, month := 1, day := 1, hour := 0, minute := 0, second := 0 }

/-- A valid in-range timestamp on a leap day. -/
def tsLeap : DateTime :=
  { year := 2024, month := 2, day := 29, hour := 23, minute := 59, second := 58 }

/-- Oscillator enabled, external clock input selected. -/
def cfgExtClock : ClockConfig :=
  { enabled := true, clock_source := ClockSource.ExtClock }

/-- Oscillator enabled, external crystal selected. -/
def cfgCrystal : ClockConfig :=
  { enabled := true, clock_source := ClockSource.ExtCrystal }

theorem bankZero_bytes : ByteBank bankZero := fun _ => by
  show (0 : Nat) < 256
  decide

theorem bankSentinel_bytes : ByteBank bankSentinel := by
  intro r
  unfold bankSentinel
  split <;> decide

theorem bankFF_bytes : ByteBank bankFF := fun _ => by
  show (255 : Nat) < 256
  decide

/-- A byte masked with 0x80 keeps exactly its bit 7. -/
theorem and_128_cases (p : Nat) : p &&& 128 = (p.testBit 7).toNat * 128 := by
  have h := Nat.and_two_pow p 7
  norm_num at h
  exact h

/-- A byte masked with 0xC0 keeps exactly its bits 7 and 6. -/
theorem and_192_cases (p : Nat) :
    p &&& 192 = ((p.testBit 7).toNat * 128) ||| ((p.testBit 6).toNat * 64) := by
  have h7 := Nat.and_two_pow p 7
  have h6 := Nat.and_two_pow p 6
  norm_num at h7 h6
  rw [show (192 : Nat) = 128 ||| 64 from rfl, Nat.and_or_distrib_left, h7, h6]

/-- Packing facts for the seconds and minutes bytes: masking the prior byte
with 0x80 and merging a BCD tens digit below 8 and ones digit below 16 gives
a byte whose 0x70 and 0x0F fields decode back to the digits and whose bit 7
is bit 7 of the prior byte. -/
theorem pack80 (b7 : Bool) : ∀ hi < 8, ∀ lo < 16,
    ((((b7.toNat * 128) ||| (hi <<< 4)) ||| lo) &&& 112) >>> 4 = hi ∧
    (((b7.toNat * 128) ||| (hi <<< 4)) ||| lo) &&& 15 = lo ∧
    Nat.testBit (((b7.toNat * 128) ||| (hi <<< 4)) ||| lo) 7 = b7 := by
  cases b7 <;> decide

/-- Packing facts for the hours byte: with a tens digit below 4 the written
byte has bit 6 (the 12-hour select) clear, decodes through the 24-hour
masks, and keeps bit 7 of the prior byte. -/
theorem pack80h (b7 : Bool) : ∀ hi < 4, ∀ lo < 16,
    ((((b7.toNat * 128) ||| (hi <<< 4)) ||| lo) &&& 64) = 0 ∧
    ((((b7.toNat * 128) ||| (hi <<< 4)) ||| lo) &&& 48) >>> 4 = hi ∧
    (((b7.toNat * 128) ||| (hi <<< 4)) ||| lo) &&& 15 = lo ∧
    Nat.testBit (((b7.toNat * 128) ||| (hi <<< 4)) ||| lo) 7 = b7 ∧
    Nat.testBit (((b7.toNat * 128) ||| (hi <<< 4)) ||| lo) 6 = false := by
  cases b7 <;> decide

/-- Packing facts for the day byte: masking the prior byte with 0xC0 and
merging a tens digit below 4 and ones digit below 16 decodes back through
the 0x30 and 0x0F masks and keeps the prior bits 7 and 6. -/
theorem pack192 (b7 b6 : Bool) : ∀ hi < 4, ∀ lo < 16,
    (((((b7.toNat * 128) ||| (b6.toNat * 64)) ||| (hi <<< 4)) ||| lo) &&& 48) >>> 4 = hi ∧
    ((((b7.toNat * 128) ||| (b6.toNat * 64)) ||| (hi <<< 4)) ||| lo) &&& 15 = lo ∧
    Nat.testBit ((((b7.toNat * 128) ||| (b6.toNat * 64)) ||| (hi <<< 4)) ||| lo) 7 = b7 ∧
    Nat.testBit ((((b7.toNat * 128) ||| (b6.toNat * 64)) ||| (hi <<< 4)) ||| lo) 6 = b6 := by
  cases b7 <;> cases b6 <;> decide

/-- Packing facts for the month byte: as for the day byte but with a tens
digit below 2, decoding through the 0x10 mask. -/
theorem pack192m (b7 b6 : Bool) : ∀ hi < 2, ∀ lo < 16,
    (((((b7.toNat * 128) ||| (b6.toNat * 64)) ||| (hi <<< 4)) ||| lo) &&& 16) >>> 4 = hi ∧
    ((((b7.toNat * 128) ||| (b6.toNat * 64)) ||| (hi <<< 4)) ||| lo) &&& 15 = lo ∧
    Nat.testBit ((((b7.toNat * 128) ||| (b6.toNat * 64)) ||| (hi <<< 4)) ||| lo) 7 = b7 ∧
    Nat.testBit ((((b7.toNat * 128) ||| (b6.toNat * 64)) ||| (hi <<< 4)) ||| lo) 6 = b6 := by
  cases b7 <;> cases b6 <;> decide

/-- Packing facts for the year byte: both BCD nibbles decode back. -/
theorem packYear : ∀ hi < 16, ∀ lo < 16,
    (((0 ||| ((hi <<< 4) % 256)) ||| lo) &&& 240) >>> 4 = hi ∧
    ((0 ||| ((hi <<< 4) % 256)) ||| lo) &&& 15 = lo := by
  decide

/-- Bytes have no bits at positions 8 and above. -/
theorem byte_testBit_high {x : Nat} (hx : x < 256) {i : Nat} (hi : 8 ≤ i) :
    x.testBit i = false := by
  apply Nat.testBit_eq_false_of_lt
  calc x < 256 := hx
    _ = 2 ^ 8 := rfl
    _ ≤ 2 ^ i := Nat.pow_le_pow_right (by norm_num) hi

/-- Setting bit 7 of a byte makes bit 7 true. -/
theorem or128_testBit7 (x : Nat) : (x ||| 128).testBit 7 = true := by
  simp [Nat.testBit_lor, show Nat.testBit 128 7 = true from by decide]

/-- Setting bit 7 leaves every other bit unchanged. -/
theorem or128_testBit (x i : Nat) (hi : i ≠ 7) : (x ||| 128).testBit i = x.testBit i := by
  have h : (128 : Nat).testBit i = false := by
    rw [show (128 : Nat) = 2 ^ 7 from rfl]
    exact Nat.testBit_two_pow_of_ne (Ne.symm hi)
  simp [Nat.testBit_lor, h]

/-- Clearing bit 7 of a byte makes bit 7 false. -/
theorem and127_testBit7 (x : Nat) : (x &&& 127).testBit 7 = false := by
  simp [Nat.testBit_land, show Nat.testBit 127 7 = false from by decide]

/-- Clearing bit 7 of a byte leaves every other bit unchanged. -/
theorem and127_testBit (x i : Nat) (hx : x < 256) (hi : i ≠ 7) :
    (x &&& 127).testBit i = x.testBit i := by
  rcases Nat.lt_or_ge i 8 with h8 | h8
  · have h : (127 : Nat).testBit i = true := by
      rw [show (127 : Nat) = 2 ^ 7 - 1 from rfl, Nat.testBit_two_pow_sub_one]
      exact decide_eq_true (by omega)
    simp [Nat.testBit_land, h]
  · rw [byte_testBit_high hx h8,
      byte_testBit_high (lt_of_le_of_lt Nat.and_le_right (by norm_num : (127 : Nat) < 256)) h8]

/-- Setting bit 3 of a byte makes bit 3 true. -/
theorem or8_testBit3 (x : Nat) : (x ||| 8).testBit 3 = true := by
  simp [Nat.testBit_lor, show Nat.testBit 8 3 = true from by decide]

/-- Setting bit 3 leaves every other bit unchanged. -/
theorem or8_testBit (x i : Nat) (hi : i ≠ 3) : (x ||| 8).testBit i = x.testBit i := by
  have h : (8 : Nat).testBit i = false := by
    rw [show (8 : Nat) = 2 ^ 3 from rfl]
    exact Nat.testBit_two_pow_of_ne (Ne.symm hi)
  simp [Nat.testBit_lor, h]

/-- Clearing bit 3 of a byte makes bit 3 false. -/
theorem and247_testBit3 (x : Nat) : (x &&& 247).testBit 3 = false := by
  simp [Nat.testBit_land, show Nat.testBit 247 3 = false from by decide]

/-- Clearing bit 3 of a byte leaves every other bit unchanged. -/
theorem and247_testBit (x i : Nat) (hx : x < 256) (hi : i ≠ 3) :
    (x &&& 247).testBit i = x.testBit i := by
  rcases Nat.lt_or_ge i 8 with h8 | h8
  · have h : (247 : Nat).testBit i = true := by
      interval_cases i <;> first | decide | exact absurd rfl hi
    simp [Nat.testBit_land, h]
  · rw [byte_testBit_high hx h8,
      byte_testBit_high (lt_of_le_of_lt Nat.and_le_right (by norm_num : (247 : Nat) < 256)) h8]

/-- Writing the pointer byte 0 plus `ds.length` data bytes leaves every
register at address `ds.length` and above unchanged. -/
theorem i2cWrite_out (bank : Bank) (ds : List Nat) (r : Nat) (hr : ds.length ≤ r) :
    i2cWrite bank (0 :: ds) r = bank r := by
  show (if 0 ≤ r ∧ r - 0 < ds.length then ds.getD (r - 0) 0 else bank r) = bank r
  rw [if_neg (by omega)]

/-- C7: for every hours register byte with bit 6 set (12-hour mode), the
driver decodes the hour by the rule of the spec: take the BCD hour from bit 4
(tens) and bits 3 to 0 (ones); if bit 5 (PM) is set and the BCD hour is not
12, add 12; if PM is clear and the BCD hour is 12, the result is 0;
otherwise the BCD hour itself. -/
theorem c7_hour12_rule : ∀ b, b < 256 → b.testBit 6 = true →
    decode_hour b = spec_hour12 (spec_bcd12 b) (b.testBit 5) := by
  decide

/-- Witness for C7 at the concrete hours byte 0x72 (12-hour mode, PM,
BCD hour 12), which decodes to 12. -/
theorem c7_hour12_rule_witness : decode_hour 0x72 = 12 :=
  (c7_hour12_rule 0x72 (by decide) (by decide)).trans (by decide)

/-- C2 (code bug): on the all-zero 7-byte register image, whose decoded
month and day are 0 and thus form no valid calendar date, `now()` does not
return a distinguishable recoverable error: the bus read succeeds (the
single transaction is the write_read) and the decode hits the `.unwrap()`
panic, modelled here by the `none` result.  The error type of the driver carries
only the transport error, so no domain/decode error case exists. -/
theorem c2_panic :
    (now bankZero).1 = [Transaction.writeRead 0 7] ∧ (now bankZero).2 = none := by
  constructor
  · rfl
  · decide

/-- C3 (code bug): `set_datetime` with year 1999 or year 2100 does not fail
with a range error; it silently computes a wrapped year byte through the
`as u8` casts (0xFF = 255 for 1999, 0xA0 = 160 for 2100), issues the write
transaction, and leaves that wrapped value in the year register 0x06. -/
theorem c3_year_wraps :
    (set_data bankZero ts1999).getD 7 0 = 255 ∧
    (set_datetime bankZero ts1999).2 6 = 255 ∧
    (set_datetime bankZero ts1999).1 =
      [Transaction.writeRead 0 7, Transaction.write (set_data bankZero ts1999)] ∧
    (set_data bankZero ts2100).getD 7 0 = 160 ∧
    (set_datetime bankZero ts2100).2 6 = 160 := by
  refine ⟨by decide, by decide, rfl, by decide, by decide⟩

/-- C10: `now()` and `osc_running()` each issue exactly one transaction, a
`write_read` (register pointer then read), never a plain write, and running
their transaction traces leaves every register of the bank unchanged. -/
theorem c10_read_only : ∀ bank : Bank,
    (now bank).1 = [Transaction.writeRead 0 7] ∧
    (osc_running bank).1 = [Transaction.writeRead 3 1] ∧
    (∀ tx ∈ (now bank).1, tx.isWrite = false) ∧
    (∀ tx ∈ (osc_running bank).1, tx.isWrite = false) ∧
    runTrace bank (now bank).1 = bank ∧
    runTrace bank (osc_running bank).1 = bank := by
  intro bank
  refine ⟨rfl, rfl, ?_, ?_, rfl, rfl⟩
  · intro tx htx
    rw [show (now bank).1 = [Transaction.writeRead 0 7] from rfl,
      List.mem_singleton] at htx
    subst htx
    rfl
  · intro tx htx
    rw [show (osc_running bank).1 = [Transaction.writeRead 3 1] from rfl,
      List.mem_singleton] at htx
    subst htx
    rfl

/-- Witness for C10 at the concrete all-zero bank: the trace of `now` is a
single write_read and replaying it changes no register. -/
theorem c10_read_only_witness :
    (now bankZero).1 = [Transaction.writeRead 0 7] ∧
    runTrace bankZero (now bankZero).1 = bankZero :=
  ⟨(c10_read_only bankZero).1, (c10_read_only bankZero).2.2.2.2.1⟩

/-- C5 counterexample: for a concrete bank and timestamp, the single write
transaction of `set_datetime` has 8 data bytes, the register pointer 0x00
followed by 7 register bytes, so it covers registers 0x00 through 0x06 only;
register 0x07 is not covered and keeps its sentinel value 171, refuting the
claim that the write covers registers 0x00 through 0x07 inclusive. -/
theorem c5_counterexample :
    (set_datetime bankSentinel tsLeap).1 =
      [Transaction.writeRead 0 7, Transaction.write (set_data bankSentinel tsLeap)] ∧
    (set_data bankSentinel tsLeap).length = 8 ∧
    Transaction.covered (Transaction.write (set_data bankSentinel tsLeap)) =
      [0, 1, 2, 3, 4, 5, 6] ∧
    (7 : Nat) ∉ Transaction.covered (Transaction.write (set_data bankSentinel tsLeap)) ∧
    (set_datetime bankSentinel tsLeap).2 7 = 171 := by
  refine ⟨rfl, rfl, by decide, by decide, by decide⟩

/-- C5 as amended: every `set_datetime` call first reads the current
register window (a write_read of 7 bytes at 0x00) and then issues exactly
one write transaction whose data covers device registers 0x00 through 0x06
inclusive (8 data bytes: the pointer byte 0x00 plus 7 register bytes). -/
theorem c5_write_window : ∀ (bank : Bank) (t : DateTime),
    (set_datetime bank t).1 =
      [Transaction.writeRead 0 7, Transaction.write (set_data bank t)] ∧
    (set_data bank t).length = 8 ∧
    (set_data bank t).getD 0 0 = 0 ∧
    Transaction.covered (Transaction.write (set_data bank t)) =
      [0, 1, 2, 3, 4, 5, 6] := by
  intro bank t
  refine ⟨rfl, rfl, rfl, ?_⟩
  show (List.range 7).map (fun i => 0 + i) = [0, 1, 2, 3, 4, 5, 6]
  decide

/-- C4 counterexample: with the all-zero bank and config enabled plus
external clock input, the read transaction fetches 8 data bytes (not 9),
the write covers registers 0x00 through 0x07 (register 0x08 is not
covered), register 0x08 stays 0 with bit 3 clear although the claim places
the mutated clock-source bit in the register-0x08 byte, and the mutation
actually lands in register 0x07. -/
theorem c4_counterexample :
    (configure_clock bankZero cfgExtClock).1 =
      [Transaction.writeRead 0 8, Transaction.write (configure_data bankZero cfgExtClock)] ∧
    Transaction.covered (Transaction.write (configure_data bankZero cfgExtClock)) =
      [0, 1, 2, 3, 4, 5, 6, 7] ∧
    (8 : Nat) ∉ Transaction.covered (Transaction.write (configure_data bankZero cfgExtClock)) ∧
    (configure_clock bankZero cfgExtClock).2 8 = 0 ∧
    Nat.testBit ((configure_clock bankZero cfgExtClock).2 8) 3 = false ∧
    Nat.testBit ((configure_clock bankZero cfgExtClock).2 7) 3 = true := by
  refine ⟨rfl, by decide, by decide, by decide, by decide, by decide⟩

/-- C4 as amended: every `configure_clock` call first reads 8 data bytes
covering registers 0x00 through 0x07, mutates only the oscillator-enable
bit (bit 7 of the seconds byte, register 0x00) and the clock-source bit
(bit 3 of the register-0x07 byte), and writes the 8 register bytes back to
registers 0x00 through 0x07 in one 9-byte write transaction (pointer byte
0x00 followed by the 8 bytes); all other registers and bits are unchanged. -/
theorem c4_rmw_window (bank : Bank) (config : ClockConfig) (hb : ByteBank bank) :
    (configure_clock bank config).1 =
      [Transaction.writeRead 0 8, Transaction.write (configure_data bank config)] ∧
    (configure_data bank config).length = 9 ∧
    (configure_data bank config).getD 0 0 = 0 ∧
    Transaction.covered (Transaction.write (configure_data bank config)) =
      [0, 1, 2, 3, 4, 5, 6, 7] ∧
    (∀ r, 8 ≤ r → (configure_clock bank config).2 r = bank r) ∧
    (∀ r, 1 ≤ r → r ≤ 6 → (configure_clock bank config).2 r = bank r) ∧
    ((configure_clock bank config).2 0).testBit 7 = config.enabled ∧
    (∀ i, i ≠ 7 → ((configure_clock bank config).2 0).testBit i = (bank 0).testBit i) ∧
    ((configure_clock bank config).2 7).testBit 3 = config.clock_source.isExtClock ∧
    (∀ i, i ≠ 3 → ((configure_clock bank config).2 7).testBit i = (bank 7).testBit i) := by
  obtain ⟨en, src⟩ := config
  refine ⟨rfl, rfl, rfl, ?_, ?_, ?_, ?_, ?_, ?_, ?_⟩
  · show (List.range 8).map (fun i => 0 + i) = [0, 1, 2, 3, 4, 5, 6, 7]
    decide
  · intro r hr
    exact i2cWrite_out bank _ r hr
  · intro r h1 h6
    interval_cases r <;> rfl
  · cases en
    · exact and127_testBit7 (bank 0)
    · exact or128_testBit7 (bank 0)
  · intro i hi
    cases en
    · exact and127_testBit (bank 0) i (hb 0) hi
    · exact or128_testBit (bank 0) i hi
  · cases src
    · exact and247_testBit3 (bank 7)
    · exact or8_testBit3 (bank 7)
  · intro i hi
    cases src
    · exact and247_testBit (bank 7) i (hb 7) hi
    · exact or8_testBit (bank 7) i hi

/-- Witness for C4 as amended, at the all-zero bank with oscillator enabled
and crystal source: bit 7 of the written register 0x00 equals the requested
enable flag. -/
theorem c4_rmw_window_witness :
    ((configure_clock bankZero cfgCrystal).2 0).testBit 7 = cfgCrystal.enabled :=
  (c4_rmw_window bankZero cfgCrystal bankZero_bytes).2.2.2.2.2.2.1

/-- C6: the bytes `configure_clock` writes back equal the bytes it read
except for exactly two bits: bit 7 of the seconds byte (buffer byte 1,
read from register 0x00) is set iff `enabled`, and bit 3 of the final
control byte (buffer byte 8, read from register 0x07) is set iff the
clock source is the external clock input; every other bit of those two
bytes and all bytes in between are returned bit-for-bit as read. -/
theorem c6_two_bits_only (bank : Bank) (config : ClockConfig) (hb : ByteBank bank) :
    ((configure_data bank config).getD 1 0).testBit 7 = config.enabled ∧
    (∀ i, i ≠ 7 →
      ((configure_data bank config).getD 1 0).testBit i = (bank 0).testBit i) ∧
    ((configure_data bank config).getD 8 0).testBit 3 = config.clock_source.isExtClock ∧
    (∀ i, i ≠ 3 →
      ((configure_data bank config).getD 8 0).testBit i = (bank 7).testBit i) ∧
    (∀ j, 2 ≤ j → j ≤ 7 → (configure_data bank config).getD j 0 = bank (j - 1)) := by
  obtain ⟨en, src⟩ := config
  refine ⟨?_, ?_, ?_, ?_, ?_⟩
  · cases en
    · exact and127_testBit7 (bank 0)
    · exact or128_testBit7 (bank 0)
  · intro i hi
    cases en
    · exact and127_testBit (bank 0) i (hb 0) hi
    · exact or128_testBit (bank 0) i hi
  · cases src
    · exact and247_testBit3 (bank 7)
    · exact or8_testBit3 (bank 7)
  · intro i hi
    cases src
    · exact and247_testBit (bank 7) i (hb 7) hi
    · exact or8_testBit (bank 7) i hi
  · intro j h2 h7
    interval_cases j <;> rfl

/-- Witness for C6 at the all-ones bank with oscillator enabled and crystal
source (the instance given in the spec): bit 3 of the written control byte is
cleared, i.e. equals `isExtClock` of the crystal source, which is false. -/
theorem c6_two_bits_only_witness :
    ((configure_data bankFF cfgCrystal).getD 8 0).testBit 3 =
      cfgCrystal.clock_source.isExtClock :=
  (c6_two_bits_only bankFF cfgCrystal bankFF_bytes).2.2.1

/-- C8: `set_datetime` preserves, relative to the pre-call register
contents: bit 7 of the seconds byte (oscillator enable), bit 7 of the
minutes byte, bit 7 of the hours byte, the entire weekday register 0x03,
and the top two bits of each of the day and month bytes.  The bounds on the
fields are the invariants of `chrono::NaiveDateTime`. -/
theorem c8_preserved_bits (bank : Bank) (t : DateTime) (hmo : t.month ≤ 12)
    (hd : t.day ≤ 31) (hh : t.hour < 24) (hmi : t.minute < 60) (hs : t.second < 60) :
    ((set_datetime bank t).2 0).testBit 7 = (bank 0).testBit 7 ∧
    ((set_datetime bank t).2 1).testBit 7 = (bank 1).testBit 7 ∧
    ((set_datetime bank t).2 2).testBit 7 = (bank 2).testBit 7 ∧
    (set_datetime bank t).2 3 = bank 3 ∧
    ((set_datetime bank t).2 4).testBit 7 = (bank 4).testBit 7 ∧
    ((set_datetime bank t).2 4).testBit 6 = (bank 4).testBit 6 ∧
    ((set_datetime bank t).2 5).testBit 7 = (bank 5).testBit 7 ∧
    ((set_datetime bank t).2 5).testBit 6 = (bank 5).testBit 6 := by
  have e0 : (set_datetime bank t).2 0 =
      ((bank 0 &&& 128) ||| ((t.second / 10) <<< 4)) ||| (t.second % 10) := rfl
  have e1 : (set_datetime bank t).2 1 =
      ((bank 1 &&& 128) ||| ((t.minute / 10) <<< 4)) ||| (t.minute % 10) := rfl
  have e2 : (set_datetime bank t).2 2 =
      ((bank 2 &&& 128) ||| ((t.hour / 10) <<< 4)) ||| (t.hour % 10) := rfl
  have e3 : (set_datetime bank t).2 3 = bank 3 := rfl
  have e4 : (set_datetime bank t).2 4 =
      ((bank 4 &&& 192) ||| ((t.day / 10) <<< 4)) ||| (t.day % 10) := rfl
  have e5 : (set_datetime bank t).2 5 =
      ((bank 5 &&& 192) ||| ((t.month / 10) <<< 4)) ||| (t.month % 10) := rfl
  rw [e0, e1, e2, e3, e4, e5, and_128_cases (bank 0), and_128_cases (bank 1),
    and_128_cases (bank 2), and_192_cases (bank 4), and_192_cases (bank 5)]
  exact ⟨(pack80 _ _ (by omega) _ (by omega)).2.2,
    (pack80 _ _ (by omega) _ (by omega)).2.2,
    (pack80 _ _ (by omega) _ (by omega)).2.2,
    rfl,
    (pack192 _ _ _ (by omega) _ (by omega)).2.2.1,
    (pack192 _ _ _ (by omega) _ (by omega)).2.2.2,
    (pack192 _ _ _ (by omega) _ (by omega)).2.2.1,
    (pack192 _ _ _ (by omega) _ (by omega)).2.2.2⟩

/-- Witness for C8 at the all-ones sentinel bank and a concrete timestamp:
the weekday register 0x03 survives the write cycle unchanged. -/
theorem c8_preserved_bits_witness :
    (set_datetime bankFF tsLeap).2 3 = bankFF 3 :=
  (c8_preserved_bits bankFF tsLeap (by decide) (by decide) (by decide)
    (by decide) (by decide)).2.2.2.1

/-- C9: for every bank and timestamp (whose hour is below 24, the
`chrono::NaiveDateTime` invariant), bit 6 of the hours byte that
`set_datetime` writes, both in the write buffer and in the resulting
register 0x02, is 0: the device is left in 24-hour mode. -/
theorem c9_always_24h (bank : Bank) (t : DateTime) (hh : t.hour < 24) :
    ((set_data bank t).getD 3 0).testBit 6 = false ∧
    ((set_datetime bank t).2 2).testBit 6 = false := by
  have h3 : (set_data bank t).getD 3 0 =
      ((bank 2 &&& 128) ||| ((t.hour / 10) <<< 4)) ||| (t.hour % 10) := rfl
  have h2 : (set_datetime bank t).2 2 =
      ((bank 2 &&& 128) ||| ((t.hour / 10) <<< 4)) ||| (t.hour % 10) := rfl
  rw [h3, h2, and_128_cases (bank 2)]
  have h := (pack80h ((bank 2).testBit 7) (t.hour / 10) (by omega)
    (t.hour % 10) (by omega)).2.2.2.2
  exact ⟨h, h⟩

/-- Witness for C9 at the all-ones bank (12-hour bit preset) and a concrete
timestamp: the written hours byte has bit 6 clear. -/
theorem c9_always_24h_witness :
    ((set_data bankFF tsLeap).getD 3 0).testBit 6 = false :=
  (c9_always_24h bankFF tsLeap (by decide)).1

/-- Days in a month never exceed 31. -/
theorem days_in_month_le (y : Int) (m : Nat) : days_in_month y m ≤ 31 := by
  unfold days_in_month
  split
  · split <;> omega
  · split <;> omega

/-- In 24-hour mode (bit 6 clear) the hours byte decodes through the 0x30
tens mask and 0x0F ones mask. -/
theorem decode_hour_24 (b : Nat) (h : b &&& 64 = 0) :
    decode_hour b = ((b &&& 48) >>> 4) * 10 + (b &&& 15) := by
  unfold decode_hour
  rw [h]
  norm_num

/-- Evaluation of `decode_time` on an explicit 7-byte image. -/
theorem decode_time_explicit (b0 b1 b2 b3 b4 b5 b6 : Nat) :
    decode_time [b0, b1, b2, b3, b4, b5, b6] =
    if ValidYmd ((((b6 &&& 240) >>> 4 : Nat) : Int) * 10 + ((b6 &&& 15 : Nat) : Int) + 2000)
        (((b5 &&& 16) >>> 4) * 10 + (b5 &&& 15))
        (((b4 &&& 48) >>> 4) * 10 + (b4 &&& 15)) ∧
      ValidHms (decode_hour b2) (((b1 &&& 112) >>> 4) * 10 + (b1 &&& 15))
        (((b0 &&& 112) >>> 4) * 10 + (b0 &&& 15))
    then some
      { year := (((b6 &&& 240) >>> 4 : Nat) : Int) * 10 + ((b6 &&& 15 : Nat) : Int) + 2000,
        month := ((b5 &&& 16) >>> 4) * 10 + (b5 &&& 15),
        day := ((b4 &&& 48) >>> 4) * 10 + (b4 &&& 15),
        hour := decode_hour b2,
        minute := ((b1 &&& 112) >>> 4) * 10 + (b1 &&& 15),
        second := ((b0 &&& 112) >>> 4) * 10 + (b0 &&& 15) }
    else none := rfl

/-- C1: writing any valid timestamp with year in 2000 to 2099 over any prior
register image and reading it back through `now()` reproduces exactly the
written timestamp; the registers not covered by the write and the preserved
bits are held constant by the simulated bank. -/
theorem c1_roundtrip (bank : Bank) (t : DateTime)
    (hy1 : 2000 ≤ t.year) (hy2 : t.year ≤ 2099)
    (hmo1 : 1 ≤ t.month) (hmo2 : t.month ≤ 12)
    (hd1 : 1 ≤ t.day) (hd2 : t.day ≤ days_in_month t.year t.month)
    (hh : t.hour < 24) (hmi : t.minute < 60) (hs : t.second < 60) :
    (now (set_datetime bank t).2).2 = some t := by
  have hd31 : t.day ≤ 31 := le_trans hd2 (days_in_month_le t.year t.month)
  have hbytes : readBytes ((set_datetime bank t).2) 0 7 =
      [((bank 0 &&& 128) ||| ((t.second / 10) <<< 4)) ||| (t.second % 10),
       ((bank 1 &&& 128) ||| ((t.minute / 10) <<< 4)) ||| (t.minute % 10),
       ((bank 2 &&& 128) ||| ((t.hour / 10) <<< 4)) ||| (t.hour % 10),
       bank 3,
       ((bank 4 &&& 192) ||| ((t.day / 10) <<< 4)) ||| (t.day % 10),
       ((bank 5 &&& 192) ||| ((t.month / 10) <<< 4)) ||| (t.month % 10),
       (0 ||| ((toU8 (Int.tdiv (t.year - 2000) 10) <<< 4) % 256)) |||
         toU8 (Int.tmod (t.year - 2000) 10)] := rfl
  rw [show (now ((set_datetime bank t).2)).2 =
      decode_time (readBytes ((set_datetime bank t).2) 0 7) from rfl,
    hbytes, decode_time_explicit]
  have hk0 : (0 : Int) ≤ t.year - 2000 := by omega
  have htd : Int.tdiv (t.year - 2000) 10 = (t.year - 2000) / 10 :=
    Int.tdiv_eq_ediv hk0 (by norm_num)
  have htm : Int.tmod (t.year - 2000) 10 = (t.year - 2000) % 10 :=
    Int.tmod_eq_emod hk0 (by norm_num)
  have hyt : toU8 (Int.tdiv (t.year - 2000) 10) = ((t.year - 2000) / 10).toNat := by
    rw [htd]
    unfold toU8
    congr 1
    omega
  have hyo : toU8 (Int.tmod (t.year - 2000) 10) = ((t.year - 2000) % 10).toNat := by
    rw [htm]
    unfold toU8
    congr 1
    omega
  rw [hyt, hyo, and_128_cases (bank 0), and_128_cases (bank 1), and_128_cases (bank 2),
    and_192_cases (bank 4), and_192_cases (bank 5)]
  have p0 := pack80 ((bank 0).testBit 7) (t.second / 10) (by omega) (t.second % 10) (by omega)
  have p1 := pack80 ((bank 1).testBit 7) (t.minute / 10) (by omega) (t.minute % 10) (by omega)
  have p2 := pack80h ((bank 2).testBit 7) (t.hour / 10) (by omega) (t.hour % 10) (by omega)
  have p4 := pack192 ((bank 4).testBit 7) ((bank 4).testBit 6) (t.day / 10) (by omega)
    (t.day % 10) (by omega)
  have p5 := pack192m ((bank 5).testBit 7) ((bank 5).testBit 6) (t.month / 10) (by omega)
    (t.month % 10) (by omega)
  have pY := packYear ((t.year - 2000) / 10).toNat (by omega) ((t.year - 2000) % 10).toNat
    (by omega)
  rw [p0.1, p0.2.1, p1.1, p1.2.1, decode_hour_24 _ p2.1, p2.2.1, p2.2.2.1,
    p4.1, p4.2.1, p5.1, p5.2.1, pY.1, pY.2]
  have hsec : t.second / 10 * 10 + t.second % 10 = t.second := by omega
  have hmin : t.minute / 10 * 10 + t.minute % 10 = t.minute := by omega
  have hhour : t.hour / 10 * 10 + t.hour % 10 = t.hour := by omega
  have hday : t.day / 10 * 10 + t.day % 10 = t.day := by omega
  have hmonth : t.month / 10 * 10 + t.month % 10 = t.month := by omega
  have hyear : ((((t.year - 2000) / 10).toNat : Int)) * 10 +
      ((((t.year - 2000) % 10).toNat : Int)) + 2000 = t.year := by omega
  rw [hsec, hmin, hhour, hday, hmonth, hyear,
    if_pos ⟨⟨hmo1, hmo2, hd1, hd2⟩, hh, hmi, hs⟩]

/-- Witness for C1 at the all-ones sentinel bank and the leap-day timestamp
2024-02-29 23:59:58: the round trip reproduces it exactly. -/
theorem c1_roundtrip_witness :
    (now (set_datetime bankFF tsLeap).2).2 = some tsLeap :=
  c1_roundtrip bankFF tsLeap (by decide) (by decide) (by decide) (by decide)
    (by decide) (by decide) (by decide) (by decide) (by decide)

end Mcp7940n
